import Mathlib

/-!
Shallow embedding of the QUANT-EVO trading pipeline core
(`app32/main.py`, `app32/brokers/base.py`, `app32/brokers/mock.py`,
`app32/db.py`, `app64/signal_engine.py`) and proofs about its
risk-gate pipeline, engine state machine, intent store updates,
signal-generator quality gates, broker adapter and single-instance lock.

Modelling conventions:
* Wall-clock instants and durations are rationals (seconds); the Python
  code computes with `datetime` / `time.time()` floats, whose rounding is
  irrelevant to the order-theoretic properties proved here.
* An `Intent.ts` field is the instant parsed from the `ts` column by
  `datetime.strptime` on the text before the dot (second resolution);
  `Intent.created_at` is the nullable richer `created_at` column.
* Configuration keys read with `params[...].get(key, default)` are
  `Option` fields; `getD` supplies the Python default.
* JSON context blobs attached to rejections are modelled as a tagged
  union (`RejectCtx`) carrying exactly the values the code interpolates.
-/

namespace QuantEvo

/-- Trade side, the `action` column: "BUY" or "SELL". -/
inductive Action
  | BUY
  | SELL
deriving DecidableEq, BEq

/-- `orders_intent.status` values (`db.py` schema plus the
administrative PROCESSED tag used by `reset_daily_counters`). -/
inductive Status
  | NEW
  | SENT
  | REJECTED
  | PROCESSED
deriving DecidableEq

/-- Rejection reason constants of `app32/main.py` (`class RejectionReason`). -/
inductive RejectionReason
  | TTL_EXPIRED
  | DAILY_LIMIT
  | COOLDOWN
  | ONE_POSITION
  | BROKER_ERROR
deriving DecidableEq

/-- The JSON `context` string each rejecting gate builds in
`app32/main.py`, as a tagged union: `ttl` carries `age_ms`/`ttl_ms`,
`daily` carries `buys_today`/`max_orders_per_day`, `cooldown` carries
`elapsed_sec`/`remaining_sec`/`cooldown_sec`, `one_position` carries the
literal `has_position` flag. -/
inductive RejectCtx
  | ttl (age_ms ttl_ms : ℚ)
  | daily (buys_today max_orders_per_day : ℤ)
  | cooldown (elapsed_sec remaining_sec cooldown_sec : ℚ)
  | one_position (has_position : Bool)
deriving DecidableEq

/-- A gate rejection: the recorded reason together with its context. -/
structure Rejection where
  reason : RejectionReason
  ctx : RejectCtx
deriving DecidableEq

/-- The configuration keys of `strategy_params.json` that the gate
pipeline reads each cycle.  Each is read via `.get(key, default)`, so an
absent key is `none`. -/
structure Params where
  signal_ttl_ms : Option ℚ
  cooldown_sec : Option ℚ
  max_orders_per_day : Option ℤ
  one_position_only : Option Bool
deriving DecidableEq

/-- Process-local runtime state of the execution engine
(`has_position`, `last_trade_ts`, `buys_today` in `main()`). -/
structure EngineState where
  has_position : Bool
  last_trade_ts : ℚ
  buys_today : ℤ
deriving DecidableEq

/-- A row of the `orders_intent` table (`db.py` schema).  `ts` is the
second-resolution creation timestamp the TTL gate parses; `created_at`
the nullable millisecond-resolution column; `ttl_ms` the TTL stored with
the intent at creation by `signal_engine.py`. -/
structure Intent where
  id : ℕ
  ts : ℚ
  created_at : Option ℚ
  symbol : String
  action : Action
  ai_score : ℚ
  ttl_ms : ℚ
  params_version_id : String
  status : Status
deriving DecidableEq

/-- The risk-gate pipeline of `app32/main.py` lines 273-339, run against
one pending intent: TTL check, daily BUY limit, BUY cooldown, single
position.  Each Python `continue` after logging a rejection is the
corresponding `some` branch here; falling through all gates (`none`)
proceeds to the broker call. -/
def evalGates (p : Params) (st : EngineState) (it : Intent) (now : ℚ) :
    Option Rejection :=
  let ttl_ms := p.signal_ttl_ms.getD 0
  let age_ms := (now - it.ts) * 1000
  if ttl_ms > 0 ∧ age_ms > ttl_ms then
    some ⟨.TTL_EXPIRED, .ttl age_ms ttl_ms⟩
  else
    let max_orders := p.max_orders_per_day.getD 0
    if it.action = .BUY ∧ max_orders ≠ 0 ∧ max_orders > 0 ∧
        st.buys_today ≥ max_orders then
      some ⟨.DAILY_LIMIT, .daily st.buys_today max_orders⟩
    else
      let cooldown_sec := p.cooldown_sec.getD 0
      let elapsed := now - st.last_trade_ts
      if it.action = .BUY ∧ cooldown_sec > 0 ∧ elapsed < cooldown_sec then
        some ⟨.COOLDOWN, .cooldown elapsed (cooldown_sec - elapsed) cooldown_sec⟩
      else
        if p.one_position_only.getD true ∧ st.has_position ∧ it.action = .BUY then
          some ⟨.ONE_POSITION, .one_position true⟩
        else
          none

/-- The recorded rejection reason of the pipeline, without its context. -/
def gateReason (p : Params) (st : EngineState) (it : Intent) (now : ℚ) :
    Option RejectionReason :=
  (evalGates p st it now).map Rejection.reason

/-- The TTL gate condition of `main.py` lines 274-279:
`ttl_ms = params["signal"].get("signal_ttl_ms", 0)` is positive and the
age computed from the `ts` column exceeds it. -/
def ttl_rejects (p : Params) (it : Intent) (now : ℚ) : Prop :=
  p.signal_ttl_ms.getD 0 > 0 ∧ (now - it.ts) * 1000 > p.signal_ttl_ms.getD 0

/-- The daily-limit gate condition of `main.py` lines 293-295: BUY,
`max_orders` truthy and positive, and `buys_today >= max_orders`. -/
def daily_rejects (p : Params) (st : EngineState) (it : Intent) : Prop :=
  it.action = .BUY ∧ p.max_orders_per_day.getD 0 ≠ 0 ∧
    p.max_orders_per_day.getD 0 > 0 ∧ st.buys_today ≥ p.max_orders_per_day.getD 0

/-- The cooldown gate condition of `main.py` lines 310-311: BUY,
positive `cooldown_sec`, and elapsed time since `last_trade_ts` below it. -/
def cooldown_rejects (p : Params) (st : EngineState) (it : Intent) (now : ℚ) : Prop :=
  it.action = .BUY ∧ p.cooldown_sec.getD 0 > 0 ∧
    now - st.last_trade_ts < p.cooldown_sec.getD 0

/-- The single-position gate condition of `main.py` lines 327-328:
`one_position_only` (default true), a held position, and a BUY. -/
def one_position_rejects (p : Params) (st : EngineState) (it : Intent) : Prop :=
  p.one_position_only.getD true ∧ st.has_position ∧ it.action = .BUY

/-- The TTL gate as claim C2 words it (for comparison with the code):
basis timestamp `created_at` falling back to `ts`, bound the stored
`ttl_ms` of the intent itself. -/
def ttl_rejects_claim (it : Intent) (now : ℚ) : Prop :=
  (now - (it.created_at.getD it.ts)) * 1000 > it.ttl_ms

/-! ### Broker adapter (`app32/brokers/base.py`, `app32/brokers/mock.py`) -/

/-- The adapter-specific `context` dict `MockBroker.place_order` returns
on success. -/
structure BrokerCtx where
  broker : String
  order_type : String
  quantity : ℤ
  price : Option ℚ
deriving DecidableEq

/-- `OrderResult` dataclass of `brokers/base.py`. -/
structure OrderResult where
  success : Bool
  order_id : Option String
  reason : Option String
  context : Option BrokerCtx := none
deriving DecidableEq

/-- `BrokerInterface.validate_order` of `brokers/base.py` lines 99-119:
returns `none` when valid, otherwise the error message.  (The literal
messages are kept up to incidental quoting.) -/
def validate_order (symbol : String) (action : String) (quantity : ℤ)
    (price : Option ℚ) : Option String :=
  if action ≠ "BUY" ∧ action ≠ "SELL" then
    some ("Invalid action: " ++ action ++ ". Must be BUY or SELL")
  else if quantity ≤ 0 then
    some ("Invalid quantity: " ++ toString quantity ++ ". Must be > 0")
  else if symbol = "" then
    some "Invalid symbol: empty"
  else
    none

/-- One entry of `MockBroker.mock_positions`. -/
structure MockPos where
  quantity : ℤ
  avg_price : ℚ
deriving DecidableEq

/-- The mutable state of a `MockBroker` instance (`order_counter`,
`mock_positions`); the DB connection and audit callback are external
side effects outside this model. -/
structure MockBroker where
  order_counter : ℕ
  mock_positions : List (String × MockPos)
deriving DecidableEq

/-- Python-dict read on the position ledger (`mock_positions[symbol]`). -/
def getPos (ps : List (String × MockPos)) (sym : String) : Option MockPos :=
  match ps with
  | [] => none
  | kv :: rest => if kv.1 = sym then some kv.2 else getPos rest sym

/-- Python-dict style update on the position ledger: replace the entry
for `sym` if present, otherwise append it. -/
def setPos (ps : List (String × MockPos)) (sym : String) (pos : MockPos) :
    List (String × MockPos) :=
  if (getPos ps sym).isSome then
    ps.map (fun kv => if kv.1 = sym then (sym, pos) else kv)
  else
    ps ++ [(sym, pos)]

/-- The synthesized mock order id
`f"MOCK_{timestamp}_{self.order_counter:04d}"`; the wall-clock segment
is abstracted away, the uniqueness-bearing counter segment kept. -/
def mock_order_id (counter : ℕ) : String :=
  "MOCK_" ++ toString counter

/-- `MockBroker.place_order` of `brokers/mock.py` lines 42-97: run the
shared validation, short-circuit to a structured failure on error;
otherwise bump the order counter, synthesize an order id, update the
simulated position ledger (`price or avg_price` is Python truthiness:
`none` or `0` keeps the old average price) and return success.  The
`execution_log_callback` invocation is an external side effect. -/
def MockBroker.place_order (b : MockBroker) (symbol : String) (action : String)
    (order_type : String) (quantity : ℤ) (price : Option ℚ) :
    MockBroker × OrderResult :=
  match validate_order symbol action quantity price with
  | some error =>
      (b, { success := false, order_id := none, reason := some error })
  | none =>
      let order_counter := b.order_counter + 1
      let order_id := mock_order_id order_counter
      let pos := (getPos b.mock_positions symbol).getD ⟨0, 0⟩
      let posNew :=
        if action = "BUY" then
          { quantity := pos.quantity + quantity,
            avg_price :=
              match price with
              | none => pos.avg_price
              | some pr => if pr = 0 then pos.avg_price else pr }
        else if action = "SELL" then
          { pos with quantity := max 0 (pos.quantity - quantity) }
        else
          pos
      ({ order_counter := order_counter,
         mock_positions := setPos b.mock_positions symbol posNew },
       { success := true,
         order_id := some order_id,
         reason := some "Order placed successfully (MOCK)",
         context := some ⟨"MOCK", order_type, quantity, price⟩ })

/-! ### Execution engine adjudication step (`app32/main.py` lines 243-391) -/

/-- The `decision` column written to `execution_log` by the engine. -/
inductive Decision
  | SENT
  | REJECTED
deriving DecidableEq

/-- Observable outcome of adjudicating one pending intent: the logged
decision and reason, the runtime state after the iteration, and the
terminal status written to `orders_intent`. -/
structure StepOutcome where
  decision : Decision
  rejection_reason : Option RejectionReason
  next_state : EngineState
  new_status : Status
deriving DecidableEq

/-- One iteration of the `for intent ... in rows` body of `main()`
(lines 243-391) for a given broker reply: run the gate pipeline; on
rejection mark REJECTED and leave the runtime state alone; on survival
consult the broker result — failure marks REJECTED/BROKER_ERROR, success
marks SENT and (lines 387-391) updates `has_position`, `last_trade_ts`
and `buys_today` only when the action is BUY. -/
def adjudicate (p : Params) (st : EngineState) (it : Intent) (now : ℚ)
    (broker_result : OrderResult) : StepOutcome :=
  match evalGates p st it now with
  | some rej => ⟨.REJECTED, some rej.reason, st, .REJECTED⟩
  | none =>
      if broker_result.success then
        let stNew :=
          if it.action = .BUY then
            { has_position := true, last_trade_ts := now,
              buys_today := st.buys_today + 1 }
          else
            st
        ⟨.SENT, none, stNew, .SENT⟩
      else
        ⟨.REJECTED, some .BROKER_ERROR, st, .REJECTED⟩

/-! ### Intent store terminal update (`app32/main.py` lines 286-289,
302-305, 320-323, 335-338, 366-369, 381-384) -/

/-- The terminal status write of the engine,
`UPDATE orders_intent SET status=? WHERE id=?`: an unconditional
single-column update keyed only on `id`, with no status guard and no
error channel — zero matching rows is not an error, and a matching row
is overwritten whatever its current status. -/
def update_intent_status (tbl : List Intent) (intent_id : ℕ)
    (new_status : Status) : List Intent :=
  tbl.map fun r => if r.id = intent_id then { r with status := new_status } else r

/-! ### Signal generator quality gates (`app64/signal_engine.py`) -/

/-- `TEST_MODE_THRESHOLD = 0.62` (`signal_engine.py` line 15). -/
def TEST_MODE_THRESHOLD : ℚ := 62 / 100

/-- `DUPLICATE_COOLDOWN_SEC = 10` (line 18). -/
def DUPLICATE_COOLDOWN_SEC : ℚ := 10

/-- `BURST_GUARD_WINDOW_SEC = 5` (line 22). -/
def BURST_GUARD_WINDOW_SEC : ℚ := 5

/-- `BURST_GUARD_LIMIT = 3` (line 23). -/
def BURST_GUARD_LIMIT : ℕ := 3

/-- The discard reasons of the three generator quality gates. -/
inductive SkipReason
  | LOW_AI_SCORE
  | DUPLICATE_COOLDOWN
  | BURST_GUARD
deriving DecidableEq

/-- The loop-local quality-gate state of the generator (`recent_signal_ts`
dict, `signal_creation_times` deque oldest-first,
`burst_guard_active_until`). -/
structure GenState where
  recent_signal_ts : List ((String × Action) × ℚ)
  signal_creation_times : List ℚ
  burst_guard_active_until : ℚ
deriving DecidableEq

/-- The `while ... popleft()` cleanup on the burst deque (lines
316-317): drop leading timestamps whose age has reached the window. -/
def dropOld (now : ℚ) : List ℚ → List ℚ
  | [] => []
  | t :: rest =>
      if now - t ≥ BURST_GUARD_WINDOW_SEC then dropOld now rest else t :: rest

/-- Python-dict read on `recent_signal_ts` (`recent_signal_ts.get(key, 0.0)`
before `getD`). -/
def getRecent (l : List ((String × Action) × ℚ)) (k : String × Action) :
    Option ℚ :=
  match l with
  | [] => none
  | kv :: rest => if kv.1 = k then some kv.2 else getRecent rest k

/-- Python-dict style update on `recent_signal_ts`. -/
def setRecent (l : List ((String × Action) × ℚ)) (k : String × Action)
    (v : ℚ) : List ((String × Action) × ℚ) :=
  if (getRecent l k).isSome then
    l.map (fun kv => if kv.1 = k then (k, v) else kv)
  else
    l ++ [(k, v)]

/-- One candidate evaluation of the generator loop (`signal_engine.py`
lines 297-349): score-threshold gate, duplicate-cooldown gate, burst
gate (deque cleanup, then the active-until check, then the limit check
that arms `burst_guard_active_until` once), and on acceptance the
duplicate/burst bookkeeping updates.  Returns the next state and the
skip reason (`none` = signal accepted and persisted). -/
def genStep (st : GenState) (now : ℚ) (sym : String) (action : Action)
    (score : ℚ) : GenState × Option SkipReason :=
  if score < TEST_MODE_THRESHOLD then
    (st, some .LOW_AI_SCORE)
  else
    let last_signal := (getRecent st.recent_signal_ts (sym, action)).getD 0
    if now - last_signal < DUPLICATE_COOLDOWN_SEC then
      (st, some .DUPLICATE_COOLDOWN)
    else
      let times := dropOld now st.signal_creation_times
      if now < st.burst_guard_active_until then
        ({ st with signal_creation_times := times }, some .BURST_GUARD)
      else if times.length ≥ BURST_GUARD_LIMIT then
        ({ st with
            signal_creation_times := times,
            burst_guard_active_until := now + BURST_GUARD_WINDOW_SEC },
          some .BURST_GUARD)
      else
        ({ recent_signal_ts := setRecent st.recent_signal_ts (sym, action) now,
           signal_creation_times := times ++ [now],
           burst_guard_active_until := st.burst_guard_active_until },
         none)

/-! ### Single-instance lock (`app64/signal_engine.py` lines 72-134) -/

/-- What reading the existing claim file yields inside the collision
handler: a parsed owner pid (`"pid|created_at"` or the bare old format),
or a `ValueError`/`IOError` (corrupted or unreadable claim). -/
inductive LockRead
  | ok (pid : ℤ)
  | corrupt
deriving DecidableEq

/-- Environment resolving the externally nondeterministic steps of
`acquire_lock_atomic`: whether the first `O_CREAT|O_EXCL` create
collides, what the collision-time read of the claim file yields, which
pids are currently running (`pid_exists`), and whether the retried
create after deleting a stale or corrupt claim collides again (another
process recreating the file between unlink and retry). -/
structure LockEnv where
  firstCollides : Bool
  read : LockRead
  pidRunning : ℤ → Bool
  secondCollides : Bool

/-- Result of `acquire_lock_atomic`: `(True, None)` is `acquired`,
`(False, existing_pid)` and `(False, None)` are `blocked`. -/
inductive AcquireResult
  | acquired
  | blocked (existing : Option ℤ)
deriving DecidableEq

/-- `acquire_lock_atomic` (lines 72-134) over a `LockEnv`: the
`for attempt in range(2)` loop unrolled.  First create succeeding
returns acquired; on collision the claim is read — a live owner returns
blocked with that pid immediately, a dead owner (or corrupt claim) is
unlinked and the create retried exactly once, the second collision
returning `(False, None)`. -/
def acquire_lock_atomic (env : LockEnv) : AcquireResult :=
  if env.firstCollides = false then
    .acquired
  else
    match env.read with
    | .ok pid =>
        if env.pidRunning pid then
          .blocked (some pid)
        else if env.secondCollides then
          .blocked none
        else
          .acquired
    | .corrupt =>
        if env.secondCollides then .blocked none else .acquired

instance (p : Params) (it : Intent) (now : ℚ) : Decidable (ttl_rejects p it now) := by
  unfold ttl_rejects; infer_instance

instance (p : Params) (st : EngineState) (it : Intent) : Decidable (daily_rejects p st it) := by
  unfold daily_rejects; infer_instance

instance (p : Params) (st : EngineState) (it : Intent) (now : ℚ) :
    Decidable (cooldown_rejects p st it now) := by
  unfold cooldown_rejects; infer_instance

instance (p : Params) (st : EngineState) (it : Intent) :
    Decidable (one_position_rejects p st it) := by
  unfold one_position_rejects; infer_instance

/-! ### Theorems -/

/-- Helper: the pipeline as the first-match cascade of the four gate
conditions, with the context each gate logs. -/
theorem evalGates_eq (p : Params) (st : EngineState) (it : Intent) (now : ℚ) :
    evalGates p st it now =
      if ttl_rejects p it now then
        some ⟨.TTL_EXPIRED, .ttl ((now - it.ts) * 1000) (p.signal_ttl_ms.getD 0)⟩
      else if daily_rejects p st it then
        some ⟨.DAILY_LIMIT, .daily st.buys_today (p.max_orders_per_day.getD 0)⟩
      else if cooldown_rejects p st it now then
        some ⟨.COOLDOWN, .cooldown (now - st.last_trade_ts)
          (p.cooldown_sec.getD 0 - (now - st.last_trade_ts)) (p.cooldown_sec.getD 0)⟩
      else if one_position_rejects p st it then
        some ⟨.ONE_POSITION, .one_position true⟩
      else
        none := by
  simp only [evalGates, ttl_rejects, daily_rejects, cooldown_rejects, one_position_rejects]

/-- C1: the execution engine evaluates the risk gates in the fixed order
TTL, daily-limit, cooldown, single-position; the first rejecting gate
determines the single recorded rejection reason and the verdict does not
depend on any later gate.  In particular an intent failing both the TTL
and daily-limit gates records TTL_EXPIRED, and one failing both the
cooldown and single-position gates (having passed the earlier gates)
records COOLDOWN. -/
theorem gate_pipeline_first_match_wins (p : Params) (st : EngineState)
    (it : Intent) (now : ℚ) :
    (ttl_rejects p it now → gateReason p st it now = some .TTL_EXPIRED)
    ∧ (¬ ttl_rejects p it now → daily_rejects p st it →
        gateReason p st it now = some .DAILY_LIMIT)
    ∧ (¬ ttl_rejects p it now → ¬ daily_rejects p st it →
        cooldown_rejects p st it now →
        gateReason p st it now = some .COOLDOWN)
    ∧ (¬ ttl_rejects p it now → ¬ daily_rejects p st it →
        ¬ cooldown_rejects p st it now → one_position_rejects p st it →
        gateReason p st it now = some .ONE_POSITION)
    ∧ (¬ ttl_rejects p it now → ¬ daily_rejects p st it →
        ¬ cooldown_rejects p st it now → ¬ one_position_rejects p st it →
        gateReason p st it now = none)
    ∧ (ttl_rejects p it now ∧ daily_rejects p st it →
        gateReason p st it now = some .TTL_EXPIRED)
    ∧ (¬ ttl_rejects p it now → ¬ daily_rejects p st it →
        cooldown_rejects p st it now ∧ one_position_rejects p st it →
        gateReason p st it now = some .COOLDOWN) := by
  unfold gateReason
  rw [evalGates_eq]
  refine ⟨?_, ?_, ?_, ?_, ?_, ?_, ?_⟩ <;> intros <;> split_ifs <;> simp_all

/-- C1 witness: a concrete intent failing both the TTL and the
daily-limit gate records TTL_EXPIRED, and a concrete intent failing both
the cooldown and the single-position gate records COOLDOWN. -/
theorem gate_pipeline_first_match_wins_witness :
    gateReason ⟨some 5000, some 30, some 5, some true⟩ ⟨false, 0, 5⟩
      ⟨1, 0, none, "005930", .BUY, 1, 5000, "v1", .NEW⟩ 10 = some .TTL_EXPIRED
    ∧ gateReason ⟨some 5000, some 30, some 5, some true⟩ ⟨true, 95, 0⟩
      ⟨2, 99, none, "005930", .BUY, 1, 5000, "v1", .NEW⟩ 100 = some .COOLDOWN := by
  constructor
  · exact (gate_pipeline_first_match_wins _ _ _ _).1
      (by norm_num [ttl_rejects])
  · exact (gate_pipeline_first_match_wins _ _ _ _).2.2.2.2.2.2
      (by norm_num [ttl_rejects]) (by norm_num [daily_rejects])
      ⟨by norm_num [cooldown_rejects], by norm_num [one_position_rejects]⟩

/-- C2 counterexample: an intent whose `created_at` is fresh (now) and
whose stored `ttl_ms` is huge, but whose coarse `ts` is 100 s old while
the configured `signal_ttl_ms` is 5000, IS rejected TTL_EXPIRED by the
code — yet under the rule stated by the claim (age from `created_at`
with `ts` fallback, bound the stored ttl of the intent itself) it would
not be rejected.  The TTL-gate characterisation in the claim is
therefore false. -/
theorem ttl_gate_basis_counterexample :
    gateReason ⟨some 5000, none, none, none⟩ ⟨false, 0, 0⟩
      ⟨1, 0, some 100, "005930", .BUY, 1, 1000000000, "v1", .NEW⟩ 100
      = some .TTL_EXPIRED
    ∧ ¬ ttl_rejects_claim
        ⟨1, 0, some 100, "005930", .BUY, 1, 1000000000, "v1", .NEW⟩ 100 := by
  constructor
  · norm_num [gateReason, evalGates]
  · norm_num [ttl_rejects_claim]

/-- C2 (amended): the TTL gate rejects with TTL_EXPIRED exactly when the
currently configured `signal_ttl_ms` is positive and the age computed
from the coarse `ts` column of the intent (`created_at` is never
consulted by this gate, nor the stored `ttl_ms`) exceeds that configured
ttl; the rejection context carries the computed age and the configured
ttl. -/
theorem ttl_gate_uses_ts_and_config_ttl (p : Params) (st : EngineState)
    (it : Intent) (now : ℚ) :
    (gateReason p st it now = some .TTL_EXPIRED ↔
      p.signal_ttl_ms.getD 0 > 0 ∧ (now - it.ts) * 1000 > p.signal_ttl_ms.getD 0)
    ∧ (ttl_rejects p it now →
        evalGates p st it now =
          some ⟨.TTL_EXPIRED, .ttl ((now - it.ts) * 1000) (p.signal_ttl_ms.getD 0)⟩) := by
  constructor
  · unfold gateReason
    rw [evalGates_eq]
    constructor
    · intro h
      by_contra hc
      rw [if_neg (by rw [ttl_rejects]; exact hc)] at h
      split_ifs at h <;> simp_all
    · intro hcond
      rw [if_pos (by rw [ttl_rejects]; exact hcond)]
      rfl
  · intro httl
    rw [evalGates_eq, if_pos httl]

/-- C2 witness: the amended theorem applied to a concrete intent whose
`ts` is 100 s old with configured ttl 5000 ms: rejected TTL_EXPIRED with
context age 100000 ms, ttl 5000 ms. -/
theorem ttl_gate_uses_ts_and_config_ttl_witness :
    evalGates ⟨some 5000, none, none, none⟩ ⟨false, 0, 0⟩
      ⟨1, 0, some 100, "005930", .BUY, 1, 1000000000, "v1", .NEW⟩ 100
      = some ⟨.TTL_EXPIRED, .ttl 100000 5000⟩ := by
  have h := (ttl_gate_uses_ts_and_config_ttl ⟨some 5000, none, none, none⟩
    ⟨false, 0, 0⟩ ⟨1, 0, some 100, "005930", .BUY, 1, 1000000000, "v1", .NEW⟩ 100).2
    (by norm_num [ttl_rejects])
  norm_num at h
  exact h

/-- C3 counterexample: the terminal-update `UPDATE orders_intent SET
status=? WHERE id=?` signals no error.  On a table whose single row id 1
is already terminal (SENT), a second terminal update of id 1 passes
silently and overwrites the status to REJECTED; an update aimed at the
missing id 2 passes silently leaving the table unchanged.  Both outcomes
contradict the claim that such updates signal an error rather than
silently succeeding. -/
theorem mark_terminal_silent_counterexample :
    update_intent_status [⟨1, 0, none, "005930", .BUY, 1, 5000, "v1", .SENT⟩]
        1 .REJECTED
      = [⟨1, 0, none, "005930", .BUY, 1, 5000, "v1", .REJECTED⟩]
    ∧ update_intent_status [⟨1, 0, none, "005930", .BUY, 1, 5000, "v1", .SENT⟩]
        2 .SENT
      = [⟨1, 0, none, "005930", .BUY, 1, 5000, "v1", .SENT⟩] :=
  ⟨rfl, rfl⟩

/-- C3 (amended): the terminal-update operation is an unconditional
single-row UPDATE keyed only on id, with no error signalling: when no
row has the target id the table is silently unchanged, and every row
with the target id — whatever its current status, terminal included —
is silently overwritten with the new status. -/
theorem update_intent_status_silent (tbl : List Intent) (intent_id : ℕ)
    (s : Status) :
    ((∀ r ∈ tbl, r.id ≠ intent_id) → update_intent_status tbl intent_id s = tbl)
    ∧ (∀ r ∈ tbl, r.id = intent_id →
        { r with status := s } ∈ update_intent_status tbl intent_id s) := by
  constructor
  · intro h
    have hgen : ∀ l : List Intent, (∀ r ∈ l, r.id ≠ intent_id) →
        update_intent_status l intent_id s = l := by
      intro l
      induction l with
      | nil => intro _; rfl
      | cons a t ih =>
          intro hl
          have ha : a.id ≠ intent_id := hl a (List.mem_cons_self a t)
          have ht := ih (fun r hr => hl r (List.mem_cons_of_mem a hr))
          simp only [update_intent_status, List.map_cons, if_neg ha]
          simp only [update_intent_status] at ht
          rw [ht]
    exact hgen tbl h
  · intro r hr hid
    unfold update_intent_status
    exact List.mem_map.mpr ⟨r, hr, by rw [if_pos hid]⟩

/-- C3 witness: the amended theorem at concrete inputs — updating id 1
on a table holding only id 2 changes nothing, and updating id 1 on a
table whose id-1 row is already SENT overwrites it to REJECTED. -/
theorem update_intent_status_silent_witness :
    update_intent_status [⟨2, 0, none, "005930", .SELL, 1, 5000, "v1", .NEW⟩]
        1 .SENT
      = [⟨2, 0, none, "005930", .SELL, 1, 5000, "v1", .NEW⟩]
    ∧ (⟨1, 0, none, "005930", .BUY, 1, 5000, "v1", .REJECTED⟩ : Intent)
        ∈ update_intent_status
            [⟨1, 0, none, "005930", .BUY, 1, 5000, "v1", .SENT⟩] 1 .REJECTED := by
  constructor
  · exact (update_intent_status_silent _ 1 .SENT).1
      (by intro r hr; rw [List.mem_singleton] at hr; subst hr; decide)
  · exact (update_intent_status_silent _ 1 .REJECTED).2
      ⟨1, 0, none, "005930", .BUY, 1, 5000, "v1", .SENT⟩
      (List.mem_singleton.mpr rfl) rfl

/-- C4 counterexample: with BURST_GUARD_LIMIT = 3 and window 5 s, three
candidates accepted at t = 100, 101, 102 arm the burst guard when the
4th qualifying candidate arrives at t = 103 (rejected BURST_GUARD,
deadline 108).  But the next candidate at t = 104 — inside the active
burst window — carries score 1/2 below the 0.62 threshold and is
discarded with reason LOW_AI_SCORE, not the burst reason: the claim that
every further candidate is discarded with reason burst "regardless of
its confidence score" is false. -/
theorem burst_gate_score_counterexample :
    let st0 : GenState := ⟨[], [], 0⟩
    let s1 := genStep st0 100 "A" .BUY 1
    let s2 := genStep s1.1 101 "B" .BUY 1
    let s3 := genStep s2.1 102 "C" .BUY 1
    let s4 := genStep s3.1 103 "D" .BUY 1
    let s5 := genStep s4.1 104 "E" .BUY (1/2)
    s1.2 = none ∧ s2.2 = none ∧ s3.2 = none
    ∧ s4.2 = some .BURST_GUARD
    ∧ s4.1.burst_guard_active_until = 108
    ∧ (104 : ℚ) < s4.1.burst_guard_active_until
    ∧ s5.2 = some .LOW_AI_SCORE
    ∧ s5.2 ≠ some .BURST_GUARD := by
  have hAB : (("A" : String) = "B") = False := by decide
  have hAC : (("A" : String) = "C") = False := by decide
  have hBC : (("B" : String) = "C") = False := by decide
  have hAD : (("A" : String) = "D") = False := by decide
  have hBD : (("B" : String) = "D") = False := by decide
  have hCD : (("C" : String) = "D") = False := by decide
  norm_num [genStep, getRecent, setRecent, dropOld, TEST_MODE_THRESHOLD,
    DUPLICATE_COOLDOWN_SEC, BURST_GUARD_WINDOW_SEC, BURST_GUARD_LIMIT,
    hAB, hAC, hBC, hAD, hBD, hCD]
  decide

/-- C4 (amended): a candidate that passes the score-threshold and
duplicate-cooldown gates while the burst guard is active is discarded
with reason BURST_GUARD and the burst deadline is left untouched (it is
never recomputed per rejected candidate); when the guard is not active
and the count of accepted signals still inside the sliding window has
reached BURST_GUARD_LIMIT, the candidate is discarded with reason
BURST_GUARD and the deadline is computed once as now +
BURST_GUARD_WINDOW_SEC.  (A candidate failing an earlier quality gate is
discarded with the reason of that gate instead.) -/
theorem burst_gate_blocks_until_deadline (st : GenState) (now : ℚ)
    (sym : String) (action : Action) (score : ℚ)
    (hscore : ¬ score < TEST_MODE_THRESHOLD)
    (hdup : ¬ now - ((getRecent st.recent_signal_ts (sym, action)).getD 0)
        < DUPLICATE_COOLDOWN_SEC) :
    (now < st.burst_guard_active_until →
      genStep st now sym action score =
        ({ st with signal_creation_times := dropOld now st.signal_creation_times },
          some .BURST_GUARD))
    ∧ (¬ now < st.burst_guard_active_until →
        (dropOld now st.signal_creation_times).length ≥ BURST_GUARD_LIMIT →
        genStep st now sym action score =
          ({ st with
              signal_creation_times := dropOld now st.signal_creation_times,
              burst_guard_active_until := now + BURST_GUARD_WINDOW_SEC },
            some .BURST_GUARD)) := by
  constructor
  · intro hactive
    simp only [genStep, if_neg hscore, if_neg hdup, if_pos hactive]
  · intro hinactive hlimit
    simp only [genStep, if_neg hscore, if_neg hdup, if_neg hinactive, if_pos hlimit]

/-- C4 witness: from the state reached after three acceptances at
t = 100, 101, 102, the 4th qualifying candidate at t = 103 (score 1,
distinct symbol) is rejected with the burst reason and the deadline is
armed once at 103 + 5 = 108. -/
theorem burst_gate_blocks_until_deadline_witness :
    genStep ⟨[(("A", .BUY), 100), (("B", .BUY), 101), (("C", .BUY), 102)],
        [100, 101, 102], 0⟩ 103 "D" .BUY 1
      = (⟨[(("A", .BUY), 100), (("B", .BUY), 101), (("C", .BUY), 102)],
          [100, 101, 102], 108⟩, some .BURST_GUARD) := by
  have hAD : (("A" : String) = "D") = False := by decide
  have hBD : (("B" : String) = "D") = False := by decide
  have hCD : (("C" : String) = "D") = False := by decide
  have h := (burst_gate_blocks_until_deadline
    ⟨[(("A", .BUY), 100), (("B", .BUY), 101), (("C", .BUY), 102)],
      [100, 101, 102], 0⟩ 103 "D" .BUY 1
    (by norm_num [TEST_MODE_THRESHOLD])
    (by norm_num [getRecent, DUPLICATE_COOLDOWN_SEC, hAD, hBD, hCD])).2
    (by norm_num) (by norm_num [dropOld, BURST_GUARD_WINDOW_SEC, BURST_GUARD_LIMIT])
  norm_num [dropOld, BURST_GUARD_WINDOW_SEC] at h
  exact h

/-- C5: adjudicating a SELL leaves every field of the engine runtime
state unchanged — in particular a SELL never clears `has_position` —
and the state changes at all only for a broker-accepted BUY (gates
passed, broker success, decision SENT). -/
theorem sell_preserves_engine_state (p : Params) (st : EngineState)
    (it : Intent) (now : ℚ) (broker_result : OrderResult) :
    (it.action = .SELL →
      (adjudicate p st it now broker_result).next_state = st
      ∧ (adjudicate p st it now broker_result).next_state.has_position
          = st.has_position)
    ∧ ((adjudicate p st it now broker_result).next_state ≠ st →
        it.action = .BUY ∧ broker_result.success = true
        ∧ (adjudicate p st it now broker_result).decision = .SENT) := by
  cases hev : evalGates p st it now with
  | some rej => simp [adjudicate, hev]
  | none =>
      by_cases hb : broker_result.success
      · cases ha : it.action <;> simp_all [adjudicate, hev, hb, ha]
      · simp [adjudicate, hev, hb]

/-- C5 witness: a concrete broker-accepted SELL (all gates pass, broker
succeeds) returns the runtime state exactly as it was. -/
theorem sell_preserves_engine_state_witness :
    (adjudicate ⟨none, none, none, some false⟩ ⟨true, 50, 3⟩
        ⟨7, 99, none, "005930", .SELL, 1, 5000, "v1", .NEW⟩ 100
        ⟨true, some "MOCK_1", none, none⟩).next_state
      = ⟨true, 50, 3⟩ :=
  ((sell_preserves_engine_state ⟨none, none, none, some false⟩ ⟨true, 50, 3⟩
    ⟨7, 99, none, "005930", .SELL, 1, 5000, "v1", .NEW⟩ 100
    ⟨true, some "MOCK_1", none, none⟩).1 rfl).1

/-- C6: on a collision of `acquire_lock_atomic` with an existing claim:
a non-running encoded owner has its stale claim deleted and the atomic
create retried exactly once — Blocked (with no pid) if that retry also
collides, Acquired otherwise (so a claim naming a dead pid is
reclaimable without manual intervention); a running encoded owner yields
Blocked with that pid immediately, with no retry (the outcome is the
same whatever a retry would have found). -/
theorem acquire_lock_stale_retry (env : LockEnv) (pid : ℤ)
    (hc : env.firstCollides = true) (hr : env.read = .ok pid) :
    (env.pidRunning pid = false →
      (env.secondCollides = true → acquire_lock_atomic env = .blocked none)
      ∧ (env.secondCollides = false → acquire_lock_atomic env = .acquired))
    ∧ (env.pidRunning pid = true →
        ∀ b : Bool,
          acquire_lock_atomic { env with secondCollides := b }
            = .blocked (some pid)) := by
  constructor
  · intro hdead
    constructor
    · intro h2
      simp [acquire_lock_atomic, hc, hr, hdead, h2]
    · intro h2
      simp [acquire_lock_atomic, hc, hr, hdead, h2]
  · intro hlive b
    simp [acquire_lock_atomic, hc, hr, hlive]

/-- C6 witness: a stale claim naming dead pid 4242 is reclaimed when the
retried create succeeds, and a claim naming live pid 777 blocks with
that pid even when a retry would have succeeded. -/
theorem acquire_lock_stale_retry_witness :
    acquire_lock_atomic ⟨true, .ok 4242, fun _ => false, false⟩ = .acquired
    ∧ acquire_lock_atomic ⟨true, .ok 777, fun _ => true, false⟩
        = .blocked (some 777) := by
  constructor
  · exact ((acquire_lock_stale_retry ⟨true, .ok 4242, fun _ => false, false⟩
      4242 rfl rfl).1 rfl).2 rfl
  · exact (acquire_lock_stale_retry ⟨true, .ok 777, fun _ => true, false⟩
      777 rfl rfl).2 rfl false

/-- C7: with a positive configured cooldown C and `last_trade_ts = T`, a
BUY that reaches the cooldown gate (earlier gates pass) is rejected with
the COOLDOWN reason exactly on [T, T+C): strictly before T+C it is
rejected, at or after T+C the cooldown gate does not reject it; and the
cooldown gate never rejects a SELL. -/
theorem cooldown_monotonicity (p : Params) (st : EngineState) (it : Intent)
    (now : ℚ) (hC : p.cooldown_sec.getD 0 > 0) :
    (it.action = .BUY → ¬ ttl_rejects p it now → ¬ daily_rejects p st it →
      (now < st.last_trade_ts + p.cooldown_sec.getD 0 →
        gateReason p st it now = some .COOLDOWN)
      ∧ (st.last_trade_ts + p.cooldown_sec.getD 0 ≤ now →
        gateReason p st it now ≠ some .COOLDOWN))
    ∧ (it.action = .SELL → gateReason p st it now ≠ some .COOLDOWN) := by
  unfold gateReason
  rw [evalGates_eq]
  constructor
  · intro hbuy httl hdaily
    constructor
    · intro hlt
      have hcd : cooldown_rejects p st it now := ⟨hbuy, hC, by linarith⟩
      rw [if_neg httl, if_neg hdaily, if_pos hcd]
      rfl
    · intro hge
      have hcd : ¬ cooldown_rejects p st it now := by
        rintro ⟨-, -, h3⟩
        linarith
      rw [if_neg httl, if_neg hdaily, if_neg hcd]
      split_ifs <;> simp
  · intro hsell
    have hdaily : ¬ daily_rejects p st it := by
      rintro ⟨hb, -, -, -⟩
      rw [hsell] at hb
      simp at hb
    have hcd : ¬ cooldown_rejects p st it now := by
      rintro ⟨hb, -, -⟩
      rw [hsell] at hb
      simp at hb
    have hop : ¬ one_position_rejects p st it := by
      rintro ⟨-, -, hb⟩
      rw [hsell] at hb
      simp at hb
    by_cases httl : ttl_rejects p it now
    · rw [if_pos httl]
      simp
    · rw [if_neg httl, if_neg hdaily, if_neg hcd, if_neg hop]
      simp

/-- C7 witness: cooldown 30 s, last BUY at T = 100; a BUY adjudicated at
now = 105 < 130 is rejected COOLDOWN, one adjudicated at now = 130 is
not rejected by the cooldown gate. -/
theorem cooldown_monotonicity_witness :
    gateReason ⟨none, some 30, none, some false⟩ ⟨true, 100, 0⟩
      ⟨3, 104, none, "005930", .BUY, 1, 5000, "v1", .NEW⟩ 105 = some .COOLDOWN
    ∧ gateReason ⟨none, some 30, none, some false⟩ ⟨true, 100, 0⟩
      ⟨3, 129, none, "005930", .BUY, 1, 5000, "v1", .NEW⟩ 130
        ≠ some .COOLDOWN := by
  constructor
  · exact ((cooldown_monotonicity _ _ _ 105 (by norm_num)).1 rfl
      (by norm_num [ttl_rejects]) (by norm_num [daily_rejects])).1 (by norm_num)
  · exact ((cooldown_monotonicity _ _ _ 130 (by norm_num)).1 rfl
      (by norm_num [ttl_rejects]) (by norm_num [daily_rejects])).2 (by norm_num)

/-- C8: the daily-limit gate never rejects a SELL; for an intent that
passes the TTL gate, it records DAILY_LIMIT exactly when the intent is a
BUY, the configured `max_orders_per_day` is positive and `buys_today`
has reached it; a configured limit of zero, a negative one, or an absent
key never rejects. -/
theorem daily_limit_buy_only (p : Params) (st : EngineState) (it : Intent)
    (now : ℚ) :
    (it.action = .SELL → gateReason p st it now ≠ some .DAILY_LIMIT)
    ∧ (¬ ttl_rejects p it now →
        (gateReason p st it now = some .DAILY_LIMIT ↔
          it.action = .BUY ∧ 0 < p.max_orders_per_day.getD 0 ∧
            p.max_orders_per_day.getD 0 ≤ st.buys_today))
    ∧ (p.max_orders_per_day.getD 0 ≤ 0 →
        gateReason p st it now ≠ some .DAILY_LIMIT)
    ∧ (p.max_orders_per_day = none →
        gateReason p st it now ≠ some .DAILY_LIMIT) := by
  have hchar : ∀ h : ¬ ttl_rejects p it now,
      (gateReason p st it now = some .DAILY_LIMIT ↔
        it.action = .BUY ∧ 0 < p.max_orders_per_day.getD 0 ∧
          p.max_orders_per_day.getD 0 ≤ st.buys_today) := by
    intro httl
    unfold gateReason
    rw [evalGates_eq, if_neg httl]
    constructor
    · intro h
      by_cases hd : daily_rejects p st it
      · exact ⟨hd.1, hd.2.2.1, hd.2.2.2⟩
      · rw [if_neg hd] at h
        split_ifs at h <;> simp_all
    · rintro ⟨hb, hpos, hge⟩
      rw [if_pos (show daily_rejects p st it from ⟨hb, by omega, hpos, hge⟩)]
      rfl
  refine ⟨?_, hchar, ?_, ?_⟩
  · intro hsell h
    by_cases httl : ttl_rejects p it now
    · have hT : gateReason p st it now = some .TTL_EXPIRED := by
        unfold gateReason
        rw [evalGates_eq, if_pos httl]
        rfl
      rw [hT] at h
      simp at h
    · rcases (hchar httl).mp h with ⟨hb, -, -⟩
      rw [hsell] at hb
      simp at hb
  · intro hle h
    by_cases httl : ttl_rejects p it now
    · have : gateReason p st it now = some .TTL_EXPIRED := by
        unfold gateReason
        rw [evalGates_eq, if_pos httl]
        rfl
      rw [this] at h
      simp at h
    · rcases (hchar httl).mp h with ⟨-, hpos, -⟩
      omega
  · intro hnone h
    have h0 : p.max_orders_per_day.getD 0 = 0 := by rw [hnone]; rfl
    by_cases httl : ttl_rejects p it now
    · have : gateReason p st it now = some .TTL_EXPIRED := by
        unfold gateReason
        rw [evalGates_eq, if_pos httl]
        rfl
      rw [this] at h
      simp at h
    · rcases (hchar httl).mp h with ⟨-, hpos, -⟩
      omega

/-- C8 witness: with the limit set to 5 and five BUYs already sent, a
fresh BUY is rejected DAILY_LIMIT; a SELL in the same situation is not;
and with the key absent the gate never rejects. -/
theorem daily_limit_buy_only_witness :
    gateReason ⟨none, none, some 5, some false⟩ ⟨false, 0, 5⟩
      ⟨4, 100, none, "005930", .BUY, 1, 5000, "v1", .NEW⟩ 100
      = some .DAILY_LIMIT
    ∧ gateReason ⟨none, none, some 5, some false⟩ ⟨false, 0, 5⟩
      ⟨4, 100, none, "005930", .SELL, 1, 5000, "v1", .NEW⟩ 100
        ≠ some .DAILY_LIMIT
    ∧ gateReason ⟨none, none, none, some false⟩ ⟨false, 0, 5⟩
      ⟨4, 100, none, "005930", .BUY, 1, 5000, "v1", .NEW⟩ 100
        ≠ some .DAILY_LIMIT := by
  refine ⟨?_, ?_, ?_⟩
  · exact ((daily_limit_buy_only _ _ _ _).2.1
      (by norm_num [ttl_rejects])).mpr ⟨rfl, by norm_num, by norm_num⟩
  · exact (daily_limit_buy_only _ _ _ _).1 rfl
  · exact (daily_limit_buy_only _ _ _ _).2.2.2 rfl

/-- C10: when the configured `signal_ttl_ms` is zero, negative or
absent, the TTL gate is skipped entirely — no intent is ever rejected
TTL_EXPIRED and the pipeline verdict is independent of the intent age
(its `ts`); conversely a TTL_EXPIRED rejection can only occur when
the configured ttl is strictly positive. -/
theorem ttl_gate_skipped_when_nonpositive (p : Params) (st : EngineState)
    (it : Intent) (now : ℚ) :
    (p.signal_ttl_ms.getD 0 ≤ 0 →
      gateReason p st it now ≠ some .TTL_EXPIRED
      ∧ ∀ ts0 : ℚ,
          evalGates p st { it with ts := ts0 } now = evalGates p st it now)
    ∧ (gateReason p st it now = some .TTL_EXPIRED →
        0 < p.signal_ttl_ms.getD 0) := by
  constructor
  · intro hle
    have httl : ¬ ttl_rejects p it now := by
      rintro ⟨hpos, -⟩
      linarith
    constructor
    · intro h
      unfold gateReason at h
      rw [evalGates_eq, if_neg httl] at h
      split_ifs at h <;> simp_all
    · intro ts0
      have httl0 : ¬ ttl_rejects p { it with ts := ts0 } now := by
        rintro ⟨hpos, -⟩
        linarith
      rw [evalGates_eq, evalGates_eq, if_neg httl, if_neg httl0]
      rfl
  · intro h
    by_contra hc
    push_neg at hc
    have httl : ¬ ttl_rejects p it now := by
      rintro ⟨hpos, -⟩
      linarith
    unfold gateReason at h
    rw [evalGates_eq, if_neg httl] at h
    split_ifs at h <;> simp_all

/-- C10 witness: with `signal_ttl_ms` configured as 0, an intent one
million seconds old is not rejected TTL_EXPIRED, and making it
arbitrarily older (ts = -1000000) leaves the pipeline verdict
untouched. -/
theorem ttl_gate_skipped_when_nonpositive_witness :
    gateReason ⟨some 0, none, none, some false⟩ ⟨false, 0, 0⟩
      ⟨5, 0, none, "005930", .BUY, 1, 5000, "v1", .NEW⟩ 1000000
      ≠ some .TTL_EXPIRED
    ∧ evalGates ⟨some 0, none, none, some false⟩ ⟨false, 0, 0⟩
        ⟨5, -1000000, none, "005930", .BUY, 1, 5000, "v1", .NEW⟩ 1000000
      = evalGates ⟨some 0, none, none, some false⟩ ⟨false, 0, 0⟩
          ⟨5, 0, none, "005930", .BUY, 1, 5000, "v1", .NEW⟩ 1000000 := by
  constructor
  · exact ((ttl_gate_skipped_when_nonpositive _ _ _ _).1 (by norm_num)).1
  · exact ((ttl_gate_skipped_when_nonpositive
      ⟨some 0, none, none, some false⟩ ⟨false, 0, 0⟩
      ⟨5, 0, none, "005930", .BUY, 1, 5000, "v1", .NEW⟩ 1000000).1
      (by norm_num)).2 (-1000000)

/-- C9: the shared `validate_order` runs before any of the simulation
broker implementation logic — on a validation error `place_order` short-circuits
with a structured failure (success false, that reason, no order id) and
touches neither the order counter nor the position ledger; once
validation passes, the simulation broker always returns success with a
synthesized order id. -/
theorem broker_validation_short_circuit (b : MockBroker)
    (symbol action order_type : String) (quantity : ℤ) (price : Option ℚ) :
    (∀ error, validate_order symbol action quantity price = some error →
      MockBroker.place_order b symbol action order_type quantity price =
        (b, { success := false, order_id := none,
              reason := some error, context := none }))
    ∧ (validate_order symbol action quantity price = none →
        (MockBroker.place_order b symbol action order_type quantity price).2.success
          = true
        ∧ (MockBroker.place_order b symbol action order_type quantity price).2.order_id
            = some (mock_order_id (b.order_counter + 1))) := by
  constructor
  · intro error herr
    simp only [MockBroker.place_order, herr]
  · intro hok
    simp [MockBroker.place_order, hok]

/-- C9 witness: an order with the invalid action HOLD fails validation
and is returned as a structured failure with the broker untouched, while
a valid BUY returns success with order id MOCK_1. -/
theorem broker_validation_short_circuit_witness :
    MockBroker.place_order ⟨0, []⟩ "005930" "HOLD" "market" 1 none
      = (⟨0, []⟩,
        { success := false,
          order_id := none,
          reason := some "Invalid action: HOLD. Must be BUY or SELL",
          context := none })
    ∧ (MockBroker.place_order ⟨0, []⟩ "005930" "BUY" "market" 1 none).2.success
        = true
    ∧ (MockBroker.place_order ⟨0, []⟩ "005930" "BUY" "market" 1 none).2.order_id
        = some (mock_order_id 1) := by
  refine ⟨?_, ?_⟩
  · exact (broker_validation_short_circuit ⟨0, []⟩ "005930" "HOLD" "market"
      1 none).1 "Invalid action: HOLD. Must be BUY or SELL" rfl
  · exact (broker_validation_short_circuit ⟨0, []⟩ "005930" "BUY" "market"
      1 none).2 rfl

end QuantEvo
